import Mathlib

/- Verification development for the streaming data-analysis pipeline of
   backend/app/services/analyzer.py (class DataAnalyzer).

   The embedding is shallow: every method of DataAnalyzer is translated into a
   pure Lean function over an explicit model of the database engine.  SQL
   queries whose semantics is plain counting (COUNT, COUNT DISTINCT, IS NULL
   counting, LIMIT) are evaluated against the modelled table; the optional
   aggregate queries of get_statistics (the numeric summary, the top-value
   query and the temporal min/max query) are external engine calls wrapped in
   try/except by the source, so they enter the model as an oracle giving, per
   column, either a result row or a raised exception.  Machine integers are
   modelled as Int (Python integers are unbounded), SQL numerics as Rat. -/

namespace Analyzer

/-- A database cell value as surfaced to Python by fetchall: SQL NULL arrives
as None, integers/floats/strings/booleans as primitive scalars, and every
other engine value (date, time, timestamp, composite, binary) as an object
whose field carries the text Python str would render for it. -/
inductive DBValue where
  | nullV : DBValue
  | intV : Int → DBValue
  | floatV : ℚ → DBValue
  | strV : String → DBValue
  | boolV : Bool → DBValue
  | otherV : String → DBValue
  deriving DecidableEq

/-- Python str applied to a fetched cell value. -/
def pyStr : DBValue → String
  | DBValue.nullV => "None"
  | DBValue.intV i => toString i
  | DBValue.floatV q => toString q
  | DBValue.strV s => s
  | DBValue.boolV b => if b then "True" else "False"
  | DBValue.otherV t => t

/-- The isinstance check of get_sample_data: int, float, str or bool. -/
def isPrimitiveScalar : DBValue → Bool
  | DBValue.intV _ => true
  | DBValue.floatV _ => true
  | DBValue.strV _ => true
  | DBValue.boolV _ => true
  | _ => false

/-- One row of the DESCRIBE result: row[0] is the column name, row[1] the
declared type; extra holds every further tuple entry (the catalog
null/key/default fields), so the Python tuple length is extra.length + 2. -/
structure DescRow where
  name : String
  dtype : String
  extra : List String
  deriving DecidableEq

/-- The working relation: its DESCRIBE schema and its rows, row-aligned with
the schema (cell i of a row belongs to schema entry i). -/
structure Table where
  schema : List DescRow
  rows : List (List DBValue)
  deriving DecidableEq

/-- The values of the column with the given name: SQL resolves a quoted column
reference against the first catalog entry carrying that name; rows shorter
than the schema read as NULL. -/
def colValues (t : Table) (cname : String) : List DBValue :=
  let i := t.schema.findIdx (fun r => r.name == cname)
  t.rows.map (fun r => r.getD i DBValue.nullV)

/-- Pydantic ColumnInfo. -/
structure ColumnInfo where
  name : String
  dtype : String
  nullable : Bool
  deriving DecidableEq

/-- Pydantic DataOverview. -/
structure DataOverview where
  row_count : Int
  column_count : Int
  file_name : String
  file_size_bytes : Int
  file_type : String
  deriving DecidableEq

/-- Pydantic SchemaInfo. -/
structure SchemaInfo where
  columns : List ColumnInfo
  deriving DecidableEq

/-- Pydantic SampleData. -/
structure SampleData where
  columns : List String
  rows : List (List DBValue)
  deriving DecidableEq

/-- A value stored in the min/max fields of ColumnStatistics, which pydantic
types as float or str: a number from the numeric summary query, or the text
rendering produced by the temporal min/max query. -/
inductive StatVal where
  | numS : ℚ → StatVal
  | textS : String → StatVal
  deriving DecidableEq

/-- Pydantic ColumnStatistics, every optional field defaulting to None. -/
structure ColumnStatistics where
  column_name : String
  dtype : String
  count : Int
  unique_count : Option Int := none
  mean : Option ℚ := none
  std : Option ℚ := none
  min : Option StatVal := none
  max : Option StatVal := none
  median : Option ℚ := none
  q25 : Option ℚ := none
  q75 : Option ℚ := none
  top_value : Option String := none
  top_frequency : Option Int := none
  deriving DecidableEq

/-- Pydantic StatisticalSummary. -/
structure StatisticalSummary where
  columns : List ColumnStatistics
  deriving DecidableEq

/-- Pydantic NullColumn. -/
structure NullColumn where
  column_name : String
  null_count : Int
  null_percentage : ℚ
  non_null_count : Int
  deriving DecidableEq

/-- Pydantic NullAnalysis. -/
structure NullAnalysis where
  total_cells : Int
  total_nulls : Int
  total_null_percentage : ℚ
  columns : List NullColumn
  deriving DecidableEq

/-- Metadata of the source file as seen by DataAnalyzer: path name, byte size
from stat, and the lower-cased extension (with its leading dot). -/
structure FileMeta where
  file_name : String
  file_size_bytes : Int
  suffix : String
  deriving DecidableEq

/-- The answers of the engine to the calls _setup_connection can make.
connectRes: duckdb.connect(path, read_only=True) on the database branch;
showTablesRes: SHOW TABLES after that connect succeeded, as (name, table)
pairs; viewRes: CREATE VIEW over the flat file after the in-memory connect
(the in-memory connect itself always succeeds). -/
structure Source where
  meta : FileMeta
  connectRes : Except String Unit
  showTablesRes : Except String (List (String × Table))
  viewRes : Except String Table

/-- The live connection: the catalog it can resolve and the working table
name the analyzer recorded, plus the file metadata kept on the analyzer. -/
structure Conn where
  tables : List (String × Table)
  table_name : String
  meta : FileMeta
  deriving DecidableEq

/-- DataAnalyzer._setup_connection.  First component: the outcome (the
exception text on failure).  Second component: whether self.con was assigned
before any exception was raised, which is exactly what _close_connection
later tests.  On the database branch a failing connect leaves con = None; on
the flat branch con is assigned by the in-memory connect before CREATE VIEW
runs, so even a failing view creation leaves an open handle behind.  When an
embedded database file lists no tables, table_name keeps its constructor
default "data" and no error is raised here. -/
def setup_connection (src : Source) : Except String Conn × Bool :=
  if src.meta.suffix == ".duckdb" || src.meta.suffix == ".db" then
    match src.connectRes with
    | Except.error e => (Except.error e, false)
    | Except.ok _ =>
      match src.showTablesRes with
      | Except.error e => (Except.error e, true)
      | Except.ok tbls =>
        let tname := match tbls with
          | [] => "data"
          | (n, _) :: _ => n
        (Except.ok { tables := tbls, table_name := tname, meta := src.meta }, true)
  else
    match src.viewRes with
    | Except.error e => (Except.error e, true)
    | Except.ok t =>
      (Except.ok { tables := [("data", t)], table_name := "data", meta := src.meta }, true)

/-- DataAnalyzer._close_connection acting on the con field (true = a handle is
held).  First component: the con field afterwards; second: how many real
engine close() calls were made. -/
def close_connection (conOpen : Bool) : Bool × Nat :=
  if conOpen then (false, 1) else (false, 0)

/-- The engine resolving FROM table_name against the catalog of the connection:
the first catalog entry with that name, or a catalog error when none exists
(the failure mode of every stage query once an empty database file left
table_name pointing at the non-existent default "data"). -/
def lookup_table (c : Conn) : Except String Table :=
  match c.tables.find? (fun p => p.1 == c.table_name) with
  | some p => Except.ok p.2
  | none =>
    Except.error ("Catalog Error: Table with name " ++ c.table_name ++ " does not exist")

/-- Python lstrip(".") : drop every leading dot character. -/
def lstripDot (s : String) : String :=
  String.mk (s.toList.dropWhile (fun ch => ch == '.'))

/-- DataAnalyzer.get_overview on the resolved working table. -/
def get_overview (m : FileMeta) (t : Table) : DataOverview :=
  { row_count := (t.rows.length : Int)
    column_count := (t.schema.length : Int)
    file_name := m.file_name
    file_size_bytes := m.file_size_bytes
    file_type := lstripDot m.suffix }

/-- The loop body of get_schema: nullable is row[2] == "YES" when the DESCRIBE
tuple has more than two entries, and defaults to True otherwise. -/
def descColumnInfo (row : DescRow) : ColumnInfo :=
  { name := row.name
    dtype := row.dtype
    nullable := match row.extra with
      | [] => true
      | s :: _ => s == "YES" }

/-- DataAnalyzer.get_schema on the resolved working table. -/
def get_schema (t : Table) : SchemaInfo :=
  { columns := t.schema.map descColumnInfo }

/-- The per-value conversion of get_sample_data: None stays None, primitive
scalars pass through, everything else becomes str(val). -/
def convertVal : DBValue → DBValue
  | DBValue.nullV => DBValue.nullV
  | DBValue.intV i => DBValue.intV i
  | DBValue.floatV q => DBValue.floatV q
  | DBValue.strV s => DBValue.strV s
  | DBValue.boolV b => DBValue.boolV b
  | DBValue.otherV t => DBValue.strV (pyStr (DBValue.otherV t))

/-- DataAnalyzer.get_sample_data on the resolved working table: SELECT * with
LIMIT, column names from DESCRIBE, every cell converted. -/
def get_sample_data (t : Table) (limit : Nat) : SampleData :=
  { columns := t.schema.map (fun r => r.name)
    rows := (t.rows.take limit).map (fun r => r.map convertVal) }

/-- Python round(x, 2) on exact rationals (ties rounded half up). -/
def round2 (q : ℚ) : ℚ := ((⌊q * 100 + 1 / 2⌋ : ℤ) : ℚ) / 100

/-- The conditional count query of get_null_analysis: how many rows of the
column are NULL. -/
def nullCount (t : Table) (cname : String) : Int :=
  ((colValues t cname).countP (fun v => v == DBValue.nullV) : Int)

/-- The loop body of get_null_analysis for one column. -/
def mkNullColumn (t : Table) (rowCount : Int) (cname : String) : NullColumn :=
  let nc := nullCount t cname
  { column_name := cname
    null_count := nc
    null_percentage := round2 (if rowCount > 0 then (nc : ℚ) / (rowCount : ℚ) * 100 else 0)
    non_null_count := rowCount - nc }

/-- DataAnalyzer.get_null_analysis on the resolved working table. -/
def get_null_analysis (t : Table) : NullAnalysis :=
  let rowCount : Int := (t.rows.length : Int)
  let cols := t.schema.map (fun r => mkNullColumn t rowCount r.name)
  let totalNulls := (cols.map (fun c => c.null_count)).sum
  let totalCells := rowCount * (t.schema.length : Int)
  { total_cells := totalCells
    total_nulls := totalNulls
    total_null_percentage :=
      round2 (if totalCells > 0 then (totalNulls : ℚ) / (totalCells : ℚ) * 100 else 0)
    columns := cols }

/-- Python str.upper on engine type names (ASCII, as all engine type tags
are). -/
def pyUpper (s : String) : String := String.mk (s.toList.map Char.toUpper)

/-- The fixed vocabulary of numeric type names that get_statistics tests by
substring containment, verbatim from the source. -/
def numericTypeNames : List String :=
  ["INT", "BIGINT", "SMALLINT", "TINYINT", "FLOAT", "DOUBLE", "DECIMAL",
    "NUMERIC", "REAL", "HUGEINT", "UBIGINT", "UINTEGER", "USMALLINT", "UTINYINT"]

/-- The fixed vocabulary of temporal type names, verbatim from the source. -/
def temporalTypeNames : List String := ["DATE", "TIME", "TIMESTAMP"]

/-- Whether a character list begins with the pattern. -/
def startsCL : List Char → List Char → Bool
  | [], _ => true
  | _ :: _, [] => false
  | a :: as, b :: bs => a == b && startsCL as bs

/-- Whether a character list contains the pattern as a contiguous run. -/
def containsCL (pat : List Char) : List Char → Bool
  | [] => startsCL pat []
  | b :: bs => startsCL pat (b :: bs) || containsCL pat bs

/-- Python substring membership: pat in s. -/
def strContains (s pat : String) : Bool := containsCL pat.toList s.toList

/-- The numeric classification of get_statistics: any numeric type name is a
substring of the upper-cased declared type. -/
def isNumericType (ct : String) : Bool :=
  numericTypeNames.any (fun pat => strContains ct pat)

/-- The temporal classification of get_statistics: any of DATE/TIME/TIMESTAMP
is a substring of the upper-cased declared type. -/
def isTemporalType (ct : String) : Bool :=
  temporalTypeNames.any (fun pat => strContains ct pat)

/-- The single fetched row of the numeric summary query: each aggregate may be
SQL NULL (empty table, or a single row for STDDEV). -/
structure NumRow where
  mean : Option ℚ
  std : Option ℚ
  minv : Option ℚ
  maxv : Option ℚ
  median : Option ℚ
  q25 : Option ℚ
  q75 : Option ℚ
  deriving DecidableEq

/-- The answers of the engine to the three optional aggregate queries of
get_statistics, keyed by column name: an error means the call raised and the
enclosing try/except of the source swallows it.  numQ is the numeric summary;
topQ the GROUP BY top-value query, whose fetchone is None when the column has
no non-null row; mmQ the temporal MIN/MAX cast to VARCHAR. -/
structure StatsOracle where
  numQ : String → Except String NumRow
  topQ : String → Except String (Option (DBValue × Int))
  mmQ : String → Except String (Option String × Option String)

/-- COUNT(DISTINCT col): the number of distinct non-null values. -/
def uniqueCount (t : Table) (cname : String) : Int :=
  ((((colValues t cname).filter (fun v => !(v == DBValue.nullV))).dedup).length : Int)

/-- The ColumnStatistics value built before any optional aggregate runs: the
common fields column_name, dtype (upper-cased), count and unique_count. -/
def baseStat (t : Table) (row : DescRow) : ColumnStatistics :=
  { column_name := row.name
    dtype := (pyUpper row.dtype)
    count := (t.rows.length : Int)
    unique_count := some (uniqueCount t row.name) }

/-- The loop body of get_statistics for one column: numeric columns take all
seven aggregates from the numeric summary query, others take the top value
and, when additionally temporal, min/max rendered as text; a raise inside
either try block leaves exactly the fields that block would have assigned at
their defaults. -/
def columnStat (t : Table) (o : StatsOracle) (row : DescRow) : ColumnStatistics :=
  let colType := (pyUpper row.dtype)
  let stats0 := baseStat t row
  if isNumericType colType then
    match o.numQ row.name with
    | Except.error _ => stats0
    | Except.ok nr =>
      { stats0 with
        mean := nr.mean
        std := nr.std
        min := nr.minv.map StatVal.numS
        max := nr.maxv.map StatVal.numS
        median := nr.median
        q25 := nr.q25
        q75 := nr.q75 }
  else
    match o.topQ row.name with
    | Except.error _ => stats0
    | Except.ok topRes =>
      let stats1 := match topRes with
        | none => stats0
        | some (v, freq) =>
          { stats0 with top_value := some (pyStr v), top_frequency := some freq }
      if isTemporalType colType then
        match o.mmQ row.name with
        | Except.error _ => stats1
        | Except.ok (mn, mx) =>
          { stats1 with min := mn.map StatVal.textS, max := mx.map StatVal.textS }
      else stats1

/-- DataAnalyzer.get_statistics on the resolved working table. -/
def get_statistics (t : Table) (o : StatsOracle) : StatisticalSummary :=
  { columns := t.schema.map (fun row => columnStat t o row) }

/-- The five data-producing stages, used to inject a fatal query failure into
a specific stage of the pipeline. -/
inductive StageTag where
  | overviewS
  | schemaS
  | sampleS
  | statisticsS
  | nullsS
  deriving DecidableEq

/-- The environment a run of analyze_stream executes against: which stage, if
any, the engine makes raise fatally (with the exception text), and the
oracle answering the optional aggregate queries. -/
structure EngineEnv where
  raiseAt : StageTag → Option String
  oracle : StatsOracle

/-- The shared preamble of every stage: a fatal engine failure injected into
this stage raises, otherwise FROM table_name is resolved. -/
def stageGate (env : EngineEnv) (s : StageTag) (c : Conn) : Except String Table :=
  match env.raiseAt s with
  | some m => Except.error m
  | none => lookup_table c

/-- The overview stage as run by analyze_stream. -/
def get_overview_stage (env : EngineEnv) (c : Conn) : Except String DataOverview :=
  match stageGate env StageTag.overviewS c with
  | Except.error e => Except.error e
  | Except.ok t => Except.ok (get_overview c.meta t)

/-- The schema stage as run by analyze_stream. -/
def get_schema_stage (env : EngineEnv) (c : Conn) : Except String SchemaInfo :=
  match stageGate env StageTag.schemaS c with
  | Except.error e => Except.error e
  | Except.ok t => Except.ok (get_schema t)

/-- The sample stage as run by analyze_stream, with the limit of 10 from the source. -/
def get_sample_stage (env : EngineEnv) (c : Conn) : Except String SampleData :=
  match stageGate env StageTag.sampleS c with
  | Except.error e => Except.error e
  | Except.ok t => Except.ok (get_sample_data t 10)

/-- The statistics stage as run by analyze_stream. -/
def get_statistics_stage (env : EngineEnv) (c : Conn) : Except String StatisticalSummary :=
  match stageGate env StageTag.statisticsS c with
  | Except.error e => Except.error e
  | Except.ok t => Except.ok (get_statistics t env.oracle)

/-- The null-analysis stage as run by analyze_stream. -/
def get_nulls_stage (env : EngineEnv) (c : Conn) : Except String NullAnalysis :=
  match stageGate env StageTag.nullsS c with
  | Except.error e => Except.error e
  | Except.ok t => Except.ok (get_null_analysis t)

/-- One serialized SSE chunk: the discriminated union AnalysisChunk of the
source, one constructor per type tag. -/
inductive AnalysisChunk where
  | overviewC : DataOverview → AnalysisChunk
  | schemaC : SchemaInfo → AnalysisChunk
  | sampleC : SampleData → AnalysisChunk
  | statisticsC : StatisticalSummary → AnalysisChunk
  | nullsC : NullAnalysis → AnalysisChunk
  | completeC : String → AnalysisChunk
  | errorC : String → AnalysisChunk
  deriving DecidableEq

/-- The closed set of chunk type tags. -/
inductive ChunkType where
  | overviewT
  | schemaT
  | sampleT
  | statisticsT
  | nullsT
  | completeT
  | errorT
  deriving DecidableEq

/-- The type tag of a chunk. -/
def AnalysisChunk.ctype : AnalysisChunk → ChunkType
  | AnalysisChunk.overviewC _ => ChunkType.overviewT
  | AnalysisChunk.schemaC _ => ChunkType.schemaT
  | AnalysisChunk.sampleC _ => ChunkType.sampleT
  | AnalysisChunk.statisticsC _ => ChunkType.statisticsT
  | AnalysisChunk.nullsC _ => ChunkType.nullsT
  | AnalysisChunk.completeC _ => ChunkType.completeT
  | AnalysisChunk.errorC _ => ChunkType.errorT

/-- Whether a chunk is the error chunk. -/
def AnalysisChunk.isErrorChunk : AnalysisChunk → Bool
  | AnalysisChunk.errorC _ => true
  | _ => false

/-- DataAnalyzer.analyze_stream: the full chunk sequence the generator yields
when driven to exhaustion.  The try block runs the six stages in order,
yielding after each; the first exception anywhere is caught and converted
into a single terminal error chunk. -/
def analyze_stream (env : EngineEnv) (src : Source) : List AnalysisChunk :=
  match (setup_connection src).1 with
  | Except.error e => [AnalysisChunk.errorC e]
  | Except.ok c =>
    match get_overview_stage env c with
    | Except.error e => [AnalysisChunk.errorC e]
    | Except.ok ov =>
      AnalysisChunk.overviewC ov ::
      match get_schema_stage env c with
      | Except.error e => [AnalysisChunk.errorC e]
      | Except.ok sc =>
        AnalysisChunk.schemaC sc ::
        match get_sample_stage env c with
        | Except.error e => [AnalysisChunk.errorC e]
        | Except.ok sp =>
          AnalysisChunk.sampleC sp ::
          match get_statistics_stage env c with
          | Except.error e => [AnalysisChunk.errorC e]
          | Except.ok st =>
            AnalysisChunk.statisticsC st ::
            match get_nulls_stage env c with
            | Except.error e => [AnalysisChunk.errorC e]
            | Except.ok nl =>
              [AnalysisChunk.nullsC nl, AnalysisChunk.completeC "Analysis complete"]

/-- What one driven run of the generator leaves behind: the chunks the
consumer actually received, the con field of the analyzer after the finally
block, and how many real engine close() calls the finally block made. -/
structure RunOutcome where
  delivered : List AnalysisChunk
  conOpenAtEnd : Bool
  closeCalls : Nat
  deriving DecidableEq

/-- One run of analyze_stream in which the consumer reads consumed chunks and
then stops (reading past the end models normal exhaustion; stopping earlier
models cancellation or disconnect).  The async-generator protocol guarantees
the finally block runs when the generator is exhausted or closed, so
_close_connection runs on every exit path. -/
def run_analyze (env : EngineEnv) (src : Source) (consumed : Nat) : RunOutcome :=
  let chunks := analyze_stream env src
  let opened := (setup_connection src).2
  let fin := close_connection opened
  { delivered := chunks.take consumed
    conOpenAtEnd := fin.1
    closeCalls := fin.2 }

/-- The normalization rule of the sampler, stated rule exactly as the specification words it:
primitive scalars pass through unchanged and any other value is converted to
its text representation.  Stated from the spec, for comparison against the
convertVal of the source. -/
def claimedNormalize (v : DBValue) : DBValue :=
  if isPrimitiveScalar v then v else DBValue.strV (pyStr v)

/-- Whether an Except is a success, without pattern matching at use sites. -/
def isOkE {ε α : Type} : Except ε α → Bool
  | Except.ok _ => true
  | Except.error _ => false

/-- A statistics oracle on which every optional aggregate query succeeds with
an all-NULL result row. -/
def noFailOracle : StatsOracle :=
  { numQ := fun _ => Except.ok ⟨none, none, none, none, none, none, none⟩
    topQ := fun _ => Except.ok none
    mmQ := fun _ => Except.ok (none, none) }

/-- A statistics oracle on which every optional aggregate query raises. -/
def failOracle : StatsOracle :=
  { numQ := fun _ => Except.error "Binder Error: aggregate failed"
    topQ := fun _ => Except.error "Binder Error: aggregate failed"
    mmQ := fun _ => Except.error "Binder Error: aggregate failed" }

/-- A statistics oracle answering every optional aggregate query with concrete
values. -/
def richOracle : StatsOracle :=
  { numQ := fun _ => Except.ok ⟨some 3, some 1, some 1, some 5, some 3, some 2, some 4⟩
    topQ := fun _ => Except.ok (some (DBValue.strV "x", 2))
    mmQ := fun _ => Except.ok (some "2020-01-01", some "2021-06-30") }

/-- An engine environment injecting no fatal stage failure. -/
def quietEnv : EngineEnv := { raiseAt := fun _ => none, oracle := noFailOracle }

/-- A small two-column, two-row table used as concrete test input. -/
def tblSmall : Table :=
  { schema := [⟨"id", "INTEGER", ["YES"]⟩, ⟨"name", "VARCHAR", ["YES"]⟩]
    rows := [[DBValue.intV 1, DBValue.strV "a"],
      [DBValue.intV 2, DBValue.nullV]] }

/-- A one-column table whose single cell is SQL NULL, with a DESCRIBE row of
bare length two. -/
def tblNull : Table :=
  { schema := [⟨"a", "INTEGER", []⟩]
    rows := [[DBValue.nullV]] }

/-- A flat-file source that opens cleanly onto tblSmall. -/
def srcCsv : Source :=
  { meta := { file_name := "t.csv", file_size_bytes := 42, suffix := ".csv" }
    connectRes := Except.ok ()
    showTablesRes := Except.ok []
    viewRes := Except.ok tblSmall }

/-- Metadata of an embedded database file holding no tables. -/
def metaEmptyDb : FileMeta :=
  { file_name := "empty.db", file_size_bytes := 12288, suffix := ".db" }

/-- An embedded database source whose catalog lists no tables. -/
def srcEmptyDb : Source :=
  { meta := metaEmptyDb
    connectRes := Except.ok ()
    showTablesRes := Except.ok []
    viewRes := Except.error "unused" }

/-- A flat-file source on which the view creation fails (unreadable file). -/
def srcMissing : Source :=
  { meta := { file_name := "missing.csv", file_size_bytes := 0, suffix := ".csv" }
    connectRes := Except.ok ()
    showTablesRes := Except.ok []
    viewRes := Except.error "IO Error: No files found that match the pattern" }

theorem startsCL_correct (p : List Char) : ∀ l, startsCL p l = true ↔ ∃ r, p ++ r = l := by
  induction p with
  | nil => intro l; simp [startsCL]
  | cons a as ih =>
    intro l
    cases l with
    | nil => simp [startsCL]
    | cons b bs =>
      simp only [startsCL, Bool.and_eq_true, beq_iff_eq, ih, List.cons_append,
        List.cons.injEq]
      constructor
      · rintro ⟨rfl, r, rfl⟩
        exact ⟨r, rfl, rfl⟩
      · rintro ⟨r, rfl, rfl⟩
        exact ⟨rfl, r, rfl⟩

theorem containsCL_correct (p : List Char) :
    ∀ l, containsCL p l = true ↔ ∃ pre post, pre ++ p ++ post = l := by
  intro l
  induction l with
  | nil =>
    simp [containsCL, startsCL_correct, List.append_eq_nil]
  | cons b bs ih =>
    simp only [containsCL, Bool.or_eq_true, startsCL_correct, ih]
    constructor
    · rintro (⟨r, hr⟩ | ⟨pre, post, hp⟩)
      · exact ⟨[], r, by simpa using hr⟩
      · exact ⟨b :: pre, post, by simp [← hp]⟩
    · rintro ⟨pre, post, hp⟩
      cases pre with
      | nil => exact Or.inl ⟨post, by simpa using hp⟩
      | cons x xs =>
        simp only [List.cons_append, List.cons.injEq] at hp
        exact Or.inr ⟨xs, post, hp.2⟩

theorem strContains_correct (s pat : String) :
    strContains s pat = true ↔ ∃ pre post, pre ++ pat.toList ++ post = s.toList :=
  containsCL_correct pat.toList s.toList

theorem analyze_stream_shape (env : EngineEnv) (src : Source) :
    ∃ pre last, analyze_stream env src = pre ++ [last]
      ∧ pre.all (fun ch => !ch.isErrorChunk) = true := by
  rcases hs : (setup_connection src).1 with e | c
  · exact ⟨[], AnalysisChunk.errorC e, by simp [analyze_stream, hs], rfl⟩
  rcases h1 : get_overview_stage env c with e | ov
  · exact ⟨[], AnalysisChunk.errorC e, by simp [analyze_stream, hs, h1], rfl⟩
  rcases h2 : get_schema_stage env c with e | sc
  · exact ⟨[AnalysisChunk.overviewC ov], AnalysisChunk.errorC e,
      by simp [analyze_stream, hs, h1, h2], rfl⟩
  rcases h3 : get_sample_stage env c with e | sp
  · exact ⟨[AnalysisChunk.overviewC ov, AnalysisChunk.schemaC sc], AnalysisChunk.errorC e,
      by simp [analyze_stream, hs, h1, h2, h3], rfl⟩
  rcases h4 : get_statistics_stage env c with e | st
  · exact ⟨[AnalysisChunk.overviewC ov, AnalysisChunk.schemaC sc, AnalysisChunk.sampleC sp],
      AnalysisChunk.errorC e, by simp [analyze_stream, hs, h1, h2, h3, h4], rfl⟩
  rcases h5 : get_nulls_stage env c with e | nl
  · exact ⟨[AnalysisChunk.overviewC ov, AnalysisChunk.schemaC sc, AnalysisChunk.sampleC sp,
      AnalysisChunk.statisticsC st], AnalysisChunk.errorC e,
      by simp [analyze_stream, hs, h1, h2, h3, h4, h5], rfl⟩
  · exact ⟨[AnalysisChunk.overviewC ov, AnalysisChunk.schemaC sc, AnalysisChunk.sampleC sp,
      AnalysisChunk.statisticsC st, AnalysisChunk.nullsC nl],
      AnalysisChunk.completeC "Analysis complete",
      by simp [analyze_stream, hs, h1, h2, h3, h4, h5], rfl⟩

theorem analyze_stream_error_last (env : EngineEnv) (src : Source) :
    ((analyze_stream env src).dropLast).all (fun ch => !ch.isErrorChunk) = true := by
  obtain ⟨pre, last, heq, hall⟩ := analyze_stream_shape env src
  rw [heq, List.dropLast_concat]
  exact hall

/-- C1: on every source on which the connection opens, the working table
resolves and no stage raises, the stream produced by analyze_stream is
exactly the six chunks overview, schema, sample, statistics, nulls,
complete, one chunk per type, in that fixed order, with no other chunks
before, between, or after them. -/
theorem C1_stream_order (env : EngineEnv) (src : Source) (c : Conn)
    (hsetup : (setup_connection src).1 = Except.ok c)
    (hlook : isOkE (lookup_table c) = true)
    (hraise : ∀ s, env.raiseAt s = none) :
    (analyze_stream env src).map AnalysisChunk.ctype =
      [ChunkType.overviewT, ChunkType.schemaT, ChunkType.sampleT,
        ChunkType.statisticsT, ChunkType.nullsT, ChunkType.completeT] := by
  obtain ⟨t, ht⟩ : ∃ t, lookup_table c = Except.ok t := by
    cases h : lookup_table c with
    | ok t => exact ⟨t, rfl⟩
    | error e => rw [h] at hlook; simp [isOkE] at hlook
  simp [analyze_stream, hsetup, get_overview_stage, get_schema_stage, get_sample_stage,
    get_statistics_stage, get_nulls_stage, stageGate, hraise, ht, AnalysisChunk.ctype]

/-- C1 witness: the six-chunk sequence on the concrete CSV source. -/
theorem C1_stream_order_witness :
    (analyze_stream quietEnv srcCsv).map AnalysisChunk.ctype =
      [ChunkType.overviewT, ChunkType.schemaT, ChunkType.sampleT,
        ChunkType.statisticsT, ChunkType.nullsT, ChunkType.completeT] :=
  C1_stream_order quietEnv srcCsv
    { tables := [("data", tblSmall)], table_name := "data", meta := srcCsv.meta }
    rfl rfl (fun _ => rfl)

/-- C2: for every run of analyze_stream, whatever the engine environment, the
source, and the point at which the consumer stops reading, the delivered
chunks are a prefix of the fixed emission, the connection is closed by the
end of the run, the finally block performs a real engine close exactly when
the connection had been opened (hence at most once), a second close is a
no-op (idempotence), and no chunk ever follows an error chunk. -/
theorem C2_cleanup (env : EngineEnv) (src : Source) (k : Nat) (b : Bool) :
    (run_analyze env src k).delivered = (analyze_stream env src).take k
    ∧ (run_analyze env src k).conOpenAtEnd = false
    ∧ (run_analyze env src k).closeCalls = (if (setup_connection src).2 then 1 else 0)
    ∧ (run_analyze env src k).closeCalls ≤ 1
    ∧ close_connection (close_connection b).1 = (false, 0)
    ∧ ((analyze_stream env src).dropLast).all (fun ch => !ch.isErrorChunk) = true := by
  refine ⟨rfl, ?_, ?_, ?_, ?_, analyze_stream_error_last env src⟩
  · simp only [run_analyze, close_connection]
    split <;> rfl
  · simp only [run_analyze, close_connection]
    split <;> rfl
  · simp only [run_analyze, close_connection]
    split <;> omega
  · cases b <;> simp [close_connection]

/-- C3 counterexample: on an embedded database file whose catalog lists no
tables, opening does not fail at all (no EmptySourceError exists in the
code): _setup_connection succeeds, silently keeping the default working
table name data. -/
theorem C3_counterexample :
    (setup_connection srcEmptyDb).1 =
      Except.ok { tables := [], table_name := "data", meta := metaEmptyDb }
    ∧ isOkE (setup_connection srcEmptyDb).1 = true := by
  constructor <;> rfl

/-- C3 amended: for every embedded database source (suffix .db or .duckdb)
whose connect and SHOW TABLES succeed with an empty table list, opening
succeeds with the default working-table name data, and the stream then
consists of exactly one error chunk, raised by the first stage query against
the missing table rather than by opening. -/
theorem C3_amended (env : EngineEnv) (m : FileMeta) (vr : Except String Table)
    (hsuf : m.suffix = ".db" ∨ m.suffix = ".duckdb") :
    (setup_connection ⟨m, Except.ok (), Except.ok [], vr⟩).1 =
      Except.ok { tables := [], table_name := "data", meta := m }
    ∧ ∃ e, analyze_stream env ⟨m, Except.ok (), Except.ok [], vr⟩ =
        [AnalysisChunk.errorC e] := by
  have hs : (setup_connection ⟨m, Except.ok (), Except.ok [], vr⟩).1 =
      Except.ok { tables := [], table_name := "data", meta := m } := by
    rcases hsuf with h | h <;> simp [setup_connection, h]
  refine ⟨hs, ?_⟩
  cases hr : env.raiseAt StageTag.overviewS with
  | some msg =>
    exact ⟨msg, by simp [analyze_stream, hs, get_overview_stage, stageGate, hr]⟩
  | none =>
    exact ⟨"Catalog Error: Table with name data does not exist",
      by simp [analyze_stream, hs, get_overview_stage, stageGate, hr, lookup_table]⟩

/-- C3 amended witness: the empty database source with the quiet environment. -/
theorem C3_amended_witness :
    (setup_connection srcEmptyDb).1 =
      Except.ok { tables := [], table_name := "data", meta := metaEmptyDb }
    ∧ ∃ e, analyze_stream quietEnv srcEmptyDb = [AnalysisChunk.errorC e] :=
  C3_amended quietEnv metaEmptyDb (Except.error "unused") (Or.inl rfl)

/-- C9: on every source on which establishing the connection fails, the
stream consists of exactly one error chunk carrying the failure text, so
no data-bearing chunk precedes it. -/
theorem C9_open_failure (env : EngineEnv) (src : Source) (e : String)
    (h : (setup_connection src).1 = Except.error e) :
    analyze_stream env src = [AnalysisChunk.errorC e] := by
  simp [analyze_stream, h]

/-- C9 witness: the unreadable flat-file source. -/
theorem C9_open_failure_witness :
    analyze_stream quietEnv srcMissing =
      [AnalysisChunk.errorC "IO Error: No files found that match the pattern"] :=
  C9_open_failure quietEnv srcMissing
    "IO Error: No files found that match the pattern" rfl

theorem columnStat_common (t : Table) (o : StatsOracle) (row : DescRow) :
    (columnStat t o row).column_name = row.name
    ∧ (columnStat t o row).dtype = (pyUpper row.dtype)
    ∧ (columnStat t o row).count = (t.rows.length : Int)
    ∧ (columnStat t o row).unique_count = some (uniqueCount t row.name) := by
  unfold columnStat baseStat
  rcases hn : isNumericType (pyUpper row.dtype) with _ | _ <;> simp [hn]
  · rcases ht : o.topQ row.name with e | tv
    · simp
    · rcases tv with _ | ⟨v, f⟩ <;>
        rcases htm : isTemporalType (pyUpper row.dtype) with _ | _ <;>
        simp [htm] <;>
        rcases hm : o.mmQ row.name with e | ⟨mn, mx⟩ <;> simp
  · rcases hq : o.numQ row.name with e | nr <;> simp

/-- C4: for every column, the common fields column_name, dtype, count and
unique_count are always produced; when the numeric summary query raises on a
numeric column, or the top-value query raises on a non-numeric column, the
statistic equals the bare base value (every optional field null); when only
the temporal min/max query raises, min and max are left null; the summary
still holds one statistic per schema column under every oracle; and under
every oracle the pipeline still emits the statistics chunk and all later
chunks. -/
theorem C4_partial_failure (t : Table) (o : StatsOracle) (row : DescRow) :
    ((columnStat t o row).column_name = row.name
      ∧ (columnStat t o row).dtype = (pyUpper row.dtype)
      ∧ (columnStat t o row).count = (t.rows.length : Int)
      ∧ (columnStat t o row).unique_count = some (uniqueCount t row.name))
    ∧ (isNumericType (pyUpper row.dtype) = true → isOkE (o.numQ row.name) = false →
        columnStat t o row = baseStat t row)
    ∧ (isNumericType (pyUpper row.dtype) = false → isOkE (o.topQ row.name) = false →
        columnStat t o row = baseStat t row)
    ∧ (∀ tv, isNumericType (pyUpper row.dtype) = false →
        o.topQ row.name = Except.ok tv → isOkE (o.mmQ row.name) = false →
        (columnStat t o row).min = none ∧ (columnStat t o row).max = none)
    ∧ (∀ o2, (get_statistics t o2).columns.length = t.schema.length)
    ∧ (∀ o2 src c, (setup_connection src).1 = Except.ok c →
        isOkE (lookup_table c) = true →
        (analyze_stream { raiseAt := fun _ => none, oracle := o2 } src).map
            AnalysisChunk.ctype =
          [ChunkType.overviewT, ChunkType.schemaT, ChunkType.sampleT,
            ChunkType.statisticsT, ChunkType.nullsT, ChunkType.completeT]) := by
  refine ⟨columnStat_common t o row, ?_, ?_, ?_, ?_, ?_⟩
  · intro hn hfail
    rcases hq : o.numQ row.name with e | nr
    · simp [columnStat, hn, hq]
    · rw [hq] at hfail; simp [isOkE] at hfail
  · intro hn hfail
    rcases ht : o.topQ row.name with e | tv
    · simp [columnStat, hn, ht]
    · rw [ht] at hfail; simp [isOkE] at hfail
  · intro tv hn ht hfail
    rcases hm : o.mmQ row.name with e | mm
    · rcases tv with _ | ⟨v, f⟩ <;>
        rcases htm : isTemporalType (pyUpper row.dtype) with _ | _ <;>
        simp [columnStat, hn, ht, htm, hm, baseStat]
    · rw [hm] at hfail; simp [isOkE] at hfail
  · intro o2
    simp [get_statistics]
  · intro o2 src c hsetup hlook
    obtain ⟨t2, ht2⟩ : ∃ t2, lookup_table c = Except.ok t2 := by
      cases h : lookup_table c with
      | ok t2 => exact ⟨t2, rfl⟩
      | error e => rw [h] at hlook; simp [isOkE] at hlook
    simp [analyze_stream, hsetup, get_overview_stage, get_schema_stage,
      get_sample_stage, get_statistics_stage, get_nulls_stage, stageGate, ht2,
      AnalysisChunk.ctype]

/-- C4 witness: on the one-column table whose every optional aggregate raises,
the statistic of the numeric column is exactly the base value, one statistic per
column is produced, and the pipeline still completes. -/
theorem C4_partial_failure_witness :
    columnStat tblSmall failOracle ⟨"id", "INTEGER", ["YES"]⟩ =
        baseStat tblSmall ⟨"id", "INTEGER", ["YES"]⟩
    ∧ (get_statistics tblSmall failOracle).columns.length = tblSmall.schema.length
    ∧ (analyze_stream { raiseAt := fun _ => none, oracle := failOracle } srcCsv).map
        AnalysisChunk.ctype =
      [ChunkType.overviewT, ChunkType.schemaT, ChunkType.sampleT,
        ChunkType.statisticsT, ChunkType.nullsT, ChunkType.completeT] :=
  ⟨(C4_partial_failure tblSmall failOracle ⟨"id", "INTEGER", ["YES"]⟩).2.1
      (by decide) rfl,
    (C4_partial_failure tblSmall failOracle ⟨"id", "INTEGER", ["YES"]⟩).2.2.2.2.1
      failOracle,
    (C4_partial_failure tblSmall failOracle ⟨"id", "INTEGER", ["YES"]⟩).2.2.2.2.2
      failOracle srcCsv
      { tables := [("data", tblSmall)], table_name := "data", meta := srcCsv.meta }
      rfl rfl⟩

/-- C5: the statistic of every column carries the case-normalized declared type;
the numeric and temporal classifications are substring matches of that
normalized type against the fixed vocabularies; a numeric column takes mean,
std, min, max, median, q25 and q75 from the numeric summary row; a
non-numeric column takes the most frequent value and its frequency from the
top-value row; a non-numeric temporal column additionally takes min and max
rendered as text; and a non-numeric non-temporal column leaves min and max
null. -/
theorem C5_type_dispatch (t : Table) (o : StatsOracle) (row : DescRow) :
    ((columnStat t o row).dtype = (pyUpper row.dtype))
    ∧ (isNumericType (pyUpper row.dtype) = true ↔
        ∃ pat ∈ numericTypeNames,
          ∃ pre post, pre ++ pat.toList ++ post = (pyUpper row.dtype).toList)
    ∧ (isTemporalType (pyUpper row.dtype) = true ↔
        ∃ pat ∈ temporalTypeNames,
          ∃ pre post, pre ++ pat.toList ++ post = (pyUpper row.dtype).toList)
    ∧ (∀ nr, isNumericType (pyUpper row.dtype) = true →
        o.numQ row.name = Except.ok nr →
        columnStat t o row =
          { baseStat t row with
            mean := nr.mean
            std := nr.std
            min := nr.minv.map StatVal.numS
            max := nr.maxv.map StatVal.numS
            median := nr.median
            q25 := nr.q25
            q75 := nr.q75 })
    ∧ (∀ v f, isNumericType (pyUpper row.dtype) = false →
        o.topQ row.name = Except.ok (some (v, f)) →
        (columnStat t o row).top_value = some (pyStr v)
          ∧ (columnStat t o row).top_frequency = some f)
    ∧ (∀ tv mn mx, isNumericType (pyUpper row.dtype) = false →
        isTemporalType (pyUpper row.dtype) = true →
        o.topQ row.name = Except.ok tv → o.mmQ row.name = Except.ok (mn, mx) →
        (columnStat t o row).min = mn.map StatVal.textS
          ∧ (columnStat t o row).max = mx.map StatVal.textS)
    ∧ (isNumericType (pyUpper row.dtype) = false →
        isTemporalType (pyUpper row.dtype) = false →
        (columnStat t o row).min = none ∧ (columnStat t o row).max = none) := by
  refine ⟨?_, ?_, ?_, ?_, ?_, ?_, ?_⟩
  · exact (columnStat_common t o row).2.1
  · simp [isNumericType, List.any_eq_true, strContains_correct]
  · simp [isTemporalType, List.any_eq_true, strContains_correct]
  · intro nr hn hq
    simp [columnStat, hn, hq]
  · intro v f hn ht
    rcases htm : isTemporalType (pyUpper row.dtype) with _ | _
    · simp [columnStat, hn, ht, htm]
    · rcases hm : o.mmQ row.name with e | ⟨mn, mx⟩ <;>
        simp [columnStat, hn, ht, htm, hm]
  · intro tv mn mx hn htm ht hm
    rcases tv with _ | ⟨v, f⟩ <;> simp [columnStat, hn, ht, htm, hm]
  · intro hn htm
    rcases ht : o.topQ row.name with e | tv
    · simp [columnStat, hn, ht, baseStat]
    · rcases tv with _ | ⟨v, f⟩ <;> simp [columnStat, hn, ht, htm, baseStat]

/-- C5 witness: concrete dispatch on a numeric, a temporal and a plain text
column under the oracle answering every query. -/
theorem C5_type_dispatch_witness :
    columnStat tblSmall richOracle ⟨"id", "INTEGER", ["YES"]⟩ =
      { baseStat tblSmall ⟨"id", "INTEGER", ["YES"]⟩ with
        mean := some 3
        std := some 1
        min := some (StatVal.numS 1)
        max := some (StatVal.numS 5)
        median := some 3
        q25 := some 2
        q75 := some 4 }
    ∧ (columnStat tblSmall richOracle ⟨"name", "VARCHAR", ["YES"]⟩).top_value = some "x"
    ∧ (columnStat tblSmall richOracle ⟨"name", "VARCHAR", ["YES"]⟩).top_frequency = some 2
    ∧ (columnStat tblSmall richOracle ⟨"ts", "TIMESTAMP", ["YES"]⟩).min =
        some (StatVal.textS "2020-01-01")
    ∧ (columnStat tblSmall richOracle ⟨"ts", "TIMESTAMP", ["YES"]⟩).max =
        some (StatVal.textS "2021-06-30") := by
  have hnum := (C5_type_dispatch tblSmall richOracle ⟨"id", "INTEGER", ["YES"]⟩).2.2.2.1
    ⟨some 3, some 1, some 1, some 5, some 3, some 2, some 4⟩ (by decide) rfl
  have htop := (C5_type_dispatch tblSmall richOracle ⟨"name", "VARCHAR", ["YES"]⟩).2.2.2.2.1
    (DBValue.strV "x") 2 (by decide) rfl
  have hmm := (C5_type_dispatch tblSmall richOracle ⟨"ts", "TIMESTAMP", ["YES"]⟩).2.2.2.2.2.1
    (some (DBValue.strV "x", 2)) (some "2020-01-01") (some "2021-06-30")
    (by decide) (by decide) rfl rfl
  exact ⟨hnum, htop.1, htop.2, hmm.1, hmm.2⟩

theorem round2_intCast (n : ℤ) : round2 ((n : ℚ)) = (n : ℚ) := by
  unfold round2
  have h : ⌊(n : ℚ) * 100 + 1 / 2⌋ = n * 100 := by
    rw [Int.floor_eq_iff]
    constructor
    · push_cast
      linarith
    · push_cast
      linarith
  rw [h]
  push_cast
  ring

theorem round2_zero : round2 0 = 0 := by
  have h := round2_intCast 0
  simpa using h

/-- C6: for every dataset, the null analysis satisfies: per column,
non_null_count plus null_count equals the row count of the overview, the null
count is between zero and the row count, and null_percentage is the null
share times one hundred rounded to two decimals, guarded to zero on an empty
table; in the aggregate, total_cells is row count times column count,
total_nulls is the sum of the per-column null counts, and
total_null_percentage obeys the same zero guard. -/
theorem C6_null_arithmetic (t : Table) (m : FileMeta) :
    (∀ nc ∈ (get_null_analysis t).columns,
        nc.non_null_count + nc.null_count = (get_overview m t).row_count
        ∧ 0 ≤ nc.null_count
        ∧ nc.null_count ≤ (t.rows.length : Int)
        ∧ nc.null_percentage =
            round2 (if (t.rows.length : Int) > 0
              then (nc.null_count : ℚ) / ((t.rows.length : Int) : ℚ) * 100 else 0)
        ∧ (t.rows.length = 0 → nc.null_percentage = 0))
    ∧ (get_null_analysis t).total_cells =
        (get_overview m t).row_count * (get_overview m t).column_count
    ∧ (get_null_analysis t).total_nulls =
        ((get_null_analysis t).columns.map (fun c => c.null_count)).sum
    ∧ (get_null_analysis t).total_null_percentage =
        round2 (if (get_null_analysis t).total_cells > 0
          then ((get_null_analysis t).total_nulls : ℚ) /
            (((get_null_analysis t).total_cells : Int) : ℚ) * 100 else 0)
    ∧ (t.rows.length = 0 → (get_null_analysis t).total_null_percentage = 0)
    ∧ (get_null_analysis t).columns.length = t.schema.length := by
  refine ⟨?_, rfl, rfl, rfl, ?_, ?_⟩
  · intro nc hmem
    simp only [get_null_analysis, List.mem_map] at hmem
    obtain ⟨r, hr, rfl⟩ := hmem
    have hbound : (colValues t r.name).countP (fun v => v == DBValue.nullV) ≤
        (colValues t r.name).length := List.countP_le_length _
    have hlen : (colValues t r.name).length = t.rows.length := by
      simp [colValues]
    refine ⟨?_, ?_, ?_, rfl, ?_⟩
    · simp only [mkNullColumn, get_overview]
      omega
    · simp only [mkNullColumn, nullCount]
      omega
    · simp only [mkNullColumn, nullCount]
      omega
    · intro h0
      simp [mkNullColumn, h0, round2_zero]
  · intro h0
    simp [get_null_analysis, h0, round2_zero]
  · simp [get_null_analysis]

/-- C6 witness: the name column of the small table, one null out of two
rows. -/
theorem C6_null_arithmetic_witness :
    (mkNullColumn tblSmall 2 "name").non_null_count +
        (mkNullColumn tblSmall 2 "name").null_count =
      (get_overview srcCsv.meta tblSmall).row_count
    ∧ 0 ≤ (mkNullColumn tblSmall 2 "name").null_count := by
  have h := (C6_null_arithmetic tblSmall srcCsv.meta).1
    (mkNullColumn tblSmall 2 "name") (List.Mem.tail _ (List.Mem.head _))
  exact ⟨h.1, h.2.1⟩

/-- C7 counterexample: on a table whose single sampled cell is SQL NULL, the
sampler output differs from what the claimed normalization rule (primitive
scalars unchanged, any other value converted to its text representation)
prescribes: the rule would render the text None, the code keeps the null. -/
theorem C7_counterexample :
    (get_sample_data tblNull 10).rows ≠
        (tblNull.rows.take 10).map (fun r => r.map claimedNormalize)
    ∧ (get_sample_data tblNull 10).rows = [[DBValue.nullV]]
    ∧ (tblNull.rows.take 10).map (fun r => r.map claimedNormalize) =
        [[DBValue.strV "None"]] := by
  refine ⟨?_, rfl, rfl⟩
  decide

/-- C7 amended: the sample stage returns exactly min(10, row count) rows, its
column list equals the column names of the schema in schema order, and every
value is normalized by the per-value conversion, under which primitive
scalars pass through unchanged, SQL NULL passes through as null, and every
other value is converted to its text representation. -/
theorem C7_sample_shape (t : Table) :
    (get_sample_data t 10).rows.length = min 10 t.rows.length
    ∧ (get_sample_data t 10).columns = (get_schema t).columns.map (fun c => c.name)
    ∧ (get_sample_data t 10).rows = (t.rows.take 10).map (fun r => r.map convertVal)
    ∧ (∀ v, isPrimitiveScalar v = true → convertVal v = v)
    ∧ convertVal DBValue.nullV = DBValue.nullV
    ∧ (∀ v, isPrimitiveScalar v = false → v ≠ DBValue.nullV →
        convertVal v = DBValue.strV (pyStr v)) := by
  refine ⟨?_, ?_, rfl, ?_, rfl, ?_⟩
  · simp [get_sample_data]
  · simp [get_sample_data, get_schema, descColumnInfo, List.map_map, Function.comp]
  · intro v hv
    cases v <;> simp_all [isPrimitiveScalar, convertVal]
  · intro v h1 h2
    cases v <;> simp_all [isPrimitiveScalar, convertVal]

/-- C7 amended witness: the sample length of the small table, and a non-primitive
non-null value rendered as text. -/
theorem C7_sample_shape_witness :
    (get_sample_data tblSmall 10).rows.length = min 10 tblSmall.rows.length
    ∧ convertVal (DBValue.otherV "2020-01-01") = DBValue.strV (pyStr (DBValue.otherV "2020-01-01")) :=
  ⟨(C7_sample_shape tblSmall).1,
    (C7_sample_shape tblSmall).2.2.2.2.2 (DBValue.otherV "2020-01-01") rfl (by decide)⟩

/-- C8: every column descriptor whose DESCRIBE tuple carries no third entry
(the engine does not explicitly report nullability) is produced by the
schema introspector with its nullable flag true. -/
theorem C8_nullable_default (t : Table) (row : DescRow) (hmem : row ∈ t.schema)
    (h : row.extra = []) :
    descColumnInfo row ∈ (get_schema t).columns
    ∧ (descColumnInfo row).nullable = true := by
  constructor
  · exact List.mem_map_of_mem descColumnInfo hmem
  · simp [descColumnInfo, h]

/-- C8 witness: the bare two-entry DESCRIBE row of the null table. -/
theorem C8_nullable_default_witness :
    descColumnInfo ⟨"a", "INTEGER", []⟩ ∈ (get_schema tblNull).columns
    ∧ (descColumnInfo ⟨"a", "INTEGER", []⟩).nullable = true :=
  C8_nullable_default tblNull ⟨"a", "INTEGER", []⟩ (by decide) rfl

/-- C10: the sampler emits SQL NULL unchanged: the per-value conversion maps
null to null and never to a text rendering, unlike other non-primitive
values, which become their text representation. -/
theorem C10_null_passthrough (t : Table) (lim : Nat) :
    (get_sample_data t lim).rows = (t.rows.take lim).map (fun r => r.map convertVal)
    ∧ convertVal DBValue.nullV = DBValue.nullV
    ∧ (∀ s, convertVal DBValue.nullV ≠ DBValue.strV s)
    ∧ (∀ s, isPrimitiveScalar (DBValue.otherV s) = false
        ∧ convertVal (DBValue.otherV s) = DBValue.strV s) := by
  refine ⟨rfl, rfl, ?_, ?_⟩
  · intro s h
    cases h
  · intro s
    exact ⟨rfl, rfl⟩

/-- C10 witness: the sampled row of the null table keeps its null. -/
theorem C10_null_passthrough_witness :
    (get_sample_data tblNull 7).rows = [[DBValue.nullV]]
    ∧ convertVal DBValue.nullV = DBValue.nullV := by
  have h := C10_null_passthrough tblNull 7
  exact ⟨h.1.trans rfl, h.2.1⟩

end Analyzer
